import Mathlib

/-!
Verification of the SleepTracker analytics core against its specification.

Shallow embedding conventions, used consistently below:

* Rust `f64` values are modelled as `ℚ` (exact arithmetic; the analytics
  pipeline only adds, subtracts, multiplies, divides and compares, except for
  `f64::sqrt`, which is modelled by `rat_sqrt` below — no claim in this
  development depends on the value of a square root, only on whether one is
  present).
* `chrono::NaiveDate` is modelled as `ℤ`, counting days since
  `NaiveDate::MIN`, so day `0` is the smallest representable date and
  `pred_opt` / `checked_sub_signed` fail exactly when the result would drop
  below `0`.
* `chrono::NaiveTime` is modelled as minutes since local midnight (`ℤ` or
  `ℚ` depending on context, matching the source's own `minutes_of_day`
  conversion).
* A `chrono_tz::Tz` is modelled abstractly (`TzModel`) as a classification of
  local naive timestamps into the three `LocalResult` shapes chrono exposes:
  a single instant, an ambiguous pair (earliest/latest), or no instant at
  all.  Instants are UTC minutes.
* Rust `Vec<f64>::sort_by(total_cmp)` is modelled with
  `List.insertionSort (· ≤ ·)`: for `ℚ` the sorted permutation of a list is
  unique, so the choice of algorithm is semantically irrelevant.
  `select_nth_unstable` in the summary handler is modelled through its
  documented contract (the selected element is the element at the selected
  rank of the sorted order, and the low partition holds the `mid` smallest
  elements), see `summary_bucket_median`.
* `HashSet` cardinalities are modelled as `List.eraseDups` lengths.
-/

/- ===================== OrderStatistics (src/sleep-api/src/trends.rs) ===================== -/

/-- Model of `f64::rem_euclid` for a positive modulus: `x - y * ⌊x / y⌋`. -/
def rem_euclid (x y : ℚ) : ℚ := x - y * ⌊x / y⌋

/-- trends.rs `normalize_minutes`: reduce a minute count into `[0, 1440)`.
The source computes `((min % day) + day) % day` with `%` the Rust `f64` remainder;
for the positive modulus `1440` this equals euclidean remainder. -/
def normalize_minutes (min : ℚ) : ℚ := rem_euclid min (24 * 60)

/-- trends.rs `circular_minutes_diff` (lines 552-556). -/
def circular_minutes_diff (a b : ℚ) : ℚ :=
  let diff := rem_euclid (a - b) (24 * 60)
  min diff (24 * 60 - diff)

/-- trends.rs `circular_signed_minutes_delta` (lines 558-561). -/
def circular_signed_minutes_delta (later earlier : ℚ) : ℚ :=
  rem_euclid (later - earlier + 24 * 60 / 2) (24 * 60) - 24 * 60 / 2

/-- trends.rs `within_clock_minute_band` (lines 563-565). -/
def within_clock_minute_band (value center threshold_min : ℚ) : Bool :=
  decide (circular_minutes_diff value center ≤ threshold_min)

/-- Model of Rust `f64::clamp(0.0, 1.0)`. -/
def clamp01 (p : ℚ) : ℚ := if p < 0 then 0 else if 1 < p then 1 else p

/-- trends.rs `percentile_linear` (lines 567-581): sort a copy, take the linear
interpolation at rank `p * (n - 1)`.  Out-of-range indexing cannot occur (the
rank is clamped into `[0, n-1]`), so the source's panicking `sorted[i]` is
modelled with `List.getD _ _ 0`. -/
def percentile_linear (values : List ℚ) (p : ℚ) : Option ℚ :=
  if values.isEmpty then Option.none
  else
    let sorted := List.insertionSort (· ≤ ·) values
    let rank := clamp01 p * ((sorted.length - 1 : ℕ) : ℚ)
    let lower := ⌊rank⌋.toNat
    let upper := ⌈rank⌉.toNat
    if lower = upper then sorted.get? lower
    else
      let weight := rank - (lower : ℚ)
      some (sorted.getD lower 0 * (1 - weight) + sorted.getD upper 0 * weight)

/-- trends.rs `median` (lines 583-585). -/
def median (values : List ℚ) : Option ℚ := percentile_linear values (1/2)

/-- Rational stand-in for `f64::sqrt`; exact on perfect squares of naturals.
Only the presence of a standard deviation, never its value, matters to the
claims checked here. -/
def rat_sqrt (q : ℚ) : ℚ := (Nat.sqrt q.num.toNat : ℚ) / (Nat.sqrt q.den : ℚ)

/-- trends.rs `std_dev` (lines 587-601): population standard deviation,
`Option.none` for fewer than two samples. -/
def std_dev (values : List ℚ) : Option ℚ :=
  if values.length < 2 then Option.none
  else
    let mean := values.sum / (values.length : ℚ)
    let var := (values.map fun v => (v - mean) * (v - mean)).sum / (values.length : ℚ)
    some (rat_sqrt var)

/-- trends.rs `abs_diff` (lines 603-608): circular distance of two optional
midpoint medians, `Option.none` if either side is missing. -/
def abs_diff (a b : Option ℚ) : Option ℚ :=
  match a, b with
  | some x, some y => some (circular_minutes_diff x y)
  | _, _ => Option.none

/-- trends.rs `pct` (lines 610-615). -/
def pct (part total : ℕ) : Option ℚ :=
  if total = 0 then Option.none else some ((part : ℚ) * 100 / (total : ℚ))

/- ===================== Summary-handler median (trends.rs `summary`, lines 236-261) ======== -/

/-- Per-bucket latency median of the `summary` handler: `select_nth_unstable`
at `mid = n / 2`; for odd `n` the selected element, for even `n` the mean of
the maximum of the low partition and the selected element.  The selection is
modelled through its contract over the sorted order: the selected element is
`sorted[mid]` and the low partition holds the `mid` smallest elements, whose
maximum is taken with `List.max?` (the partition's own order is irrelevant to
`max`). -/
def summary_bucket_median (latencies : List ℚ) : ℚ :=
  let n := latencies.length
  let sorted := List.insertionSort (· ≤ ·) latencies
  if n % 2 = 1 then sorted.getD (n / 2) 0
  else (((sorted.take (n / 2)).max?).getD 0 + sorted.getD (n / 2) 0) / 2

/- ===================== DaySample and the personalization pipeline ======================== -/

/-- trends.rs `DaySample` (lines 415-426).  `wake_date` is a day index (see
module comment); clock fields are `f64` minutes in the source, hence `ℚ`. -/
structure DaySample where
  wake_date : ℤ
  bed_clock_min : ℚ
  wake_clock_min : ℚ
  bed_relative_min : ℚ
  wake_relative_min : ℚ
  midpoint_clock_min : ℚ
  duration_min : ℚ
  quality : Option ℚ
  weekend : Bool
deriving DecidableEq

/-- trends.rs `PersonalizationWindow` (lines 297-304); `from`/`to` are Lean
keywords, hence the trailing underscores. -/
structure PersonalizationWindow where
  from_ : ℤ
  to_ : ℤ
  logged_days : ℕ
  missing_days : ℤ
  missing_days_pct : ℚ
deriving DecidableEq

/-- trends.rs `DurationBaselineMetric` (lines 306-315). -/
structure DurationBaselineMetric where
  eligible : Bool
  sample_days : ℕ
  p10_min : Option ℚ
  p50_min : Option ℚ
  p90_min : Option ℚ
  iqr_min : Option ℚ
  recent_out_of_range_incidence_pct : Option ℚ
deriving DecidableEq

/-- trends.rs `DayTypeTimingBaselineMetric` (lines 317-328). -/
structure DayTypeTimingBaselineMetric where
  eligible : Bool
  weekday_sample_days : ℕ
  weekend_sample_days : ℕ
  weekday_bed_median_min : Option ℚ
  weekday_wake_median_min : Option ℚ
  weekend_bed_median_min : Option ℚ
  weekend_wake_median_min : Option ℚ
  midpoint_stable_across_windows : Bool
  recent_14_day_diverges_from_baseline : Bool
deriving DecidableEq

/-- trends.rs `SocialJetlagMetric` (lines 330-337). -/
structure SocialJetlagMetric where
  eligible : Bool
  weekend_sample_days : ℕ
  current_delta_min : Option ℚ
  prior_delta_min : Option ℚ
  sustained_two_windows : Bool
deriving DecidableEq

/-- trends.rs `ScheduleVariabilityMetric` (lines 339-346). -/
structure ScheduleVariabilityMetric where
  eligible : Bool
  current_variability_min : Option ℚ
  prior_variability_min : Option ℚ
  sustained_two_windows : Bool
  high_data_gap : Bool
deriving DecidableEq

/-- trends.rs `RankedQualityFactor` (lines 348-352). -/
structure RankedQualityFactor where
  factor : String
  effect : ℚ
deriving DecidableEq

/-- trends.rs `QualityFactorRankingMetric` (lines 354-361). -/
structure QualityFactorRankingMetric where
  eligible : Bool
  sessions_with_quality : ℕ
  distinct_quality_values : ℕ
  stable_across_adjacent_windows : Bool
  ranked_factors : List RankedQualityFactor
deriving DecidableEq

/-- trends.rs `PersonalizationMetrics` (lines 363-370). -/
structure PersonalizationMetrics where
  duration_baseline : DurationBaselineMetric
  day_type_timing_baseline : DayTypeTimingBaselineMetric
  social_jetlag : SocialJetlagMetric
  schedule_variability : ScheduleVariabilityMetric
  quality_factor_ranking : QualityFactorRankingMetric
deriving DecidableEq

/-- trends.rs `RecommendationStatus` (lines 372-377). -/
inductive RecommendationStatus where
  | recommended
  | suppressed
deriving DecidableEq

/-- trends.rs `Confidence` (lines 379-385). -/
inductive Confidence where
  | high
  | medium
  | low
deriving DecidableEq

/-- trends.rs `ActionRecommendation` (lines 387-394). -/
structure ActionRecommendation where
  action_key : String
  status : RecommendationStatus
  confidence : Confidence
  rationale : String
  suppression_reasons : List String
deriving DecidableEq

/-- trends.rs `PersonalizationCalc` (lines 428-433). -/
structure PersonalizationCalc where
  current_window : PersonalizationWindow
  prior_window : PersonalizationWindow
  metrics : PersonalizationMetrics
  recommendations : List ActionRecommendation

/-- trends.rs `window_stats` (lines 617-638): coverage statistics of one
window; `HashSet` of wake dates modelled by `eraseDups`. -/
def window_stats (from_ to_ : ℤ) (samples : List DaySample) (window_days : ℤ) :
    PersonalizationWindow :=
  let logged_days := ((samples.map fun s => s.wake_date).eraseDups).length
  let missing_days := max (window_days - (logged_days : ℤ)) 0
  { from_ := from_, to_ := to_, logged_days := logged_days, missing_days := missing_days,
    missing_days_pct := (missing_days : ℚ) * 100 / (window_days : ℚ) }

/-- The weekday (`!weekend`) samples of a window (`samples.iter().filter(|s| !s.weekend)`). -/
def weekday_samples (samples : List DaySample) : List DaySample :=
  samples.filter fun s => !s.weekend

/-- The weekend samples of a window (`samples.iter().filter(|s| s.weekend)`). -/
def weekend_samples (samples : List DaySample) : List DaySample :=
  samples.filter fun s => s.weekend

/-- The weekday midpoint list used throughout `build_personalization_calc`
(e.g. trends.rs lines 734-738). -/
def weekday_midpoints (samples : List DaySample) : List ℚ :=
  (weekday_samples samples).map fun s => s.midpoint_clock_min

/-- The weekend midpoint list used throughout `build_personalization_calc`
(e.g. trends.rs lines 739-743). -/
def weekend_midpoints (samples : List DaySample) : List ℚ :=
  (weekend_samples samples).map fun s => s.midpoint_clock_min

/-- trends.rs `day_type_medians` (lines 640-667): weekday/weekend bed & wake
clock medians plus day-type sample counts. -/
def day_type_medians (samples : List DaySample) :
    Option ℚ × Option ℚ × ℕ × Option ℚ × Option ℚ × ℕ :=
  (median ((weekday_samples samples).map fun s => s.bed_clock_min),
   median ((weekday_samples samples).map fun s => s.wake_clock_min),
   (weekday_samples samples).length,
   median ((weekend_samples samples).map fun s => s.bed_clock_min),
   median ((weekend_samples samples).map fun s => s.wake_clock_min),
   (weekend_samples samples).length)

/-- trends.rs `social_jetlag_delta` (lines 669-687): signed circular delta of
the weekend midpoint median versus the weekday midpoint median, plus the
weekend sample count. -/
def social_jetlag_delta (samples : List DaySample) : Option ℚ × ℕ :=
  (match median (weekday_midpoints samples), median (weekend_midpoints samples) with
   | some wd, some we => some (circular_signed_minutes_delta we wd)
   | _, _ => Option.none,
   (weekend_samples samples).length)

/-- Prior-window duration list (trends.rs lines 701-704). -/
def prior_durations (prior_samples : List DaySample) : List ℚ :=
  prior_samples.map fun s => s.duration_min

/-- Current-window duration list (trends.rs lines 705-708). -/
def current_durations (current_samples : List DaySample) : List ℚ :=
  current_samples.map fun s => s.duration_min

/-- The duration-baseline metric of `build_personalization_calc`
(trends.rs lines 710-730 and 953-961). -/
def duration_metric (current_samples prior_samples : List DaySample) :
    DurationBaselineMetric :=
  let prior := prior_durations prior_samples
  let cur := current_durations current_samples
  let p10 := percentile_linear prior (1/10)
  let p50 := percentile_linear prior (1/2)
  let p90 := percentile_linear prior (9/10)
  let p25 := percentile_linear prior (1/4)
  let p75 := percentile_linear prior (3/4)
  let iqr := match p25, p75 with
    | some a, some b => some (b - a)
    | _, _ => Option.none
  let out_of_range_count := match p10, p90 with
    | some low, some high => (cur.filter fun v => decide (v < low) || decide (high < v)).length
    | _, _ => 0
  { eligible := decide (60 ≤ prior.length),
    sample_days := prior.length,
    p10_min := p10, p50_min := p50, p90_min := p90, iqr_min := iqr,
    recent_out_of_range_incidence_pct := pct out_of_range_count cur.length }

/-- trends.rs line 730: `duration_eligible && out_of_range_pct.unwrap_or(0.0) >= 5.0`. -/
def duration_trigger (current_samples prior_samples : List DaySample) : Bool :=
  (duration_metric current_samples prior_samples).eligible &&
    decide (5 ≤ ((duration_metric current_samples prior_samples).recent_out_of_range_incidence_pct).getD 0)

/-- trends.rs lines 755-757: current-vs-prior weekday midpoint medians within 30 min. -/
def weekday_mid_stable (current_samples prior_samples : List DaySample) : Bool :=
  ((abs_diff (median (weekday_midpoints current_samples)) (median (weekday_midpoints prior_samples))).map
    fun d => decide (d ≤ 30)).getD false

/-- trends.rs lines 758-760: current-vs-prior weekend midpoint medians within 30 min. -/
def weekend_mid_stable (current_samples prior_samples : List DaySample) : Bool :=
  ((abs_diff (median (weekend_midpoints current_samples)) (median (weekend_midpoints prior_samples))).map
    fun d => decide (d ≤ 30)).getD false

/-- trends.rs line 761. -/
def midpoint_stable_across_windows (current_samples prior_samples : List DaySample) : Bool :=
  weekday_mid_stable current_samples prior_samples && weekend_mid_stable current_samples prior_samples

/-- trends.rs lines 764-769: the last 14 samples in reverse input order. -/
def recent_14 (current_samples : List DaySample) : List DaySample :=
  current_samples.reverse.take 14

/-- trends.rs lines 780-791: does the recent-14 weekday or weekend midpoint
median diverge from the prior-window baseline by more than 90 minutes? -/
def recent_diverges (current_samples prior_samples : List DaySample) : Bool :=
  ((abs_diff (median (weekday_midpoints (recent_14 current_samples)))
      (median (weekday_midpoints prior_samples))).map fun d => decide (90 < d)).getD false ||
  ((abs_diff (median (weekend_midpoints (recent_14 current_samples)))
      (median (weekend_midpoints prior_samples))).map fun d => decide (90 < d)).getD false

/-- The day-type timing metric of `build_personalization_calc`
(trends.rs lines 732, 755-761, 793 and 962-972). -/
def day_type_metric (current_samples prior_samples : List DaySample) :
    DayTypeTimingBaselineMetric :=
  let m := day_type_medians current_samples
  { eligible := decide (8 ≤ m.2.2.1) && decide (4 ≤ m.2.2.2.2.2) &&
      midpoint_stable_across_windows current_samples prior_samples,
    weekday_sample_days := m.2.2.1,
    weekend_sample_days := m.2.2.2.2.2,
    weekday_bed_median_min := m.1,
    weekday_wake_median_min := m.2.1,
    weekend_bed_median_min := m.2.2.2.1,
    weekend_wake_median_min := m.2.2.2.2.1,
    midpoint_stable_across_windows := midpoint_stable_across_windows current_samples prior_samples,
    recent_14_day_diverges_from_baseline := recent_diverges current_samples prior_samples }

/-- The social-jetlag metric of `build_personalization_calc`
(trends.rs lines 795-799 and 973-979). -/
def social_metric (current_samples prior_samples : List DaySample) : SocialJetlagMetric :=
  { eligible := decide (4 ≤ (social_jetlag_delta current_samples).2) &&
      decide (4 ≤ (social_jetlag_delta prior_samples).2),
    weekend_sample_days := (social_jetlag_delta current_samples).2,
    current_delta_min := (social_jetlag_delta current_samples).1,
    prior_delta_min := (social_jetlag_delta prior_samples).1,
    sustained_two_windows :=
      ((social_jetlag_delta current_samples).1.map fun d => decide (30 ≤ |d|)).getD false &&
      ((social_jetlag_delta prior_samples).1.map fun d => decide (30 ≤ |d|)).getD false }

/-- trends.rs lines 801-828: mean of the bed/wake relative-minute standard
deviations of one window. -/
def window_variability (samples : List DaySample) : Option ℚ :=
  match std_dev (samples.map fun s => s.bed_relative_min),
        std_dev (samples.map fun s => s.wake_relative_min) with
  | some b, some w => some ((b + w) / 2)
  | _, _ => Option.none

/-- The schedule-variability metric of `build_personalization_calc`
(trends.rs lines 829-832 and 980-986). -/
def variability_metric (current_samples prior_samples : List DaySample)
    (current_from current_to : ℤ) (window_days : ℤ) : ScheduleVariabilityMetric :=
  { eligible := (window_variability current_samples).isSome &&
      (window_variability prior_samples).isSome,
    current_variability_min := window_variability current_samples,
    prior_variability_min := window_variability prior_samples,
    sustained_two_windows :=
      ((window_variability current_samples).map fun v => decide (60 ≤ v)).getD false &&
      ((window_variability prior_samples).map fun v => decide (60 ≤ v)).getD false,
    high_data_gap :=
      decide (30 < (window_stats current_from current_to current_samples window_days).missing_days_pct) }

/-- trends.rs lines 834-837: current-window samples carrying a quality score. -/
def quality_samples_current (current_samples : List DaySample) : List (DaySample × ℚ) :=
  current_samples.filterMap fun s => s.quality.map fun q => (s, q)

/-- Model of Rust's `as i32` cast on an (always finite) `f64`: truncation
toward zero.  Saturation at the `i32` range is not modelled; quality scores
are small. -/
def f64_to_i32 (q : ℚ) : ℤ := if 0 ≤ q then ⌊q⌋ else ⌈q⌉

/-- trends.rs lines 838-841: distinct quality values (`HashSet<i32>`). -/
def distinct_quality_values (current_samples : List DaySample) : ℕ :=
  (((quality_samples_current current_samples).map fun t => f64_to_i32 t.2).eraseDups).length

/-- Model of `f64::signum` (`1.0` for positive or `+0.0`, `-1.0` for negative). -/
def f64_signum (q : ℚ) : ℚ := if 0 ≤ q then 1 else -1

/-- The `is_favorable` classification inside the `factor_effect` closure
(trends.rs lines 873-892). -/
def is_favorable (midpoint_median p10 p90 : Option ℚ) (factor : String) (s : DaySample) : Bool :=
  match factor with
  | "duration_in_personal_range" =>
    match p10, p90 with
    | some low, some high => decide (low ≤ s.duration_min) && decide (s.duration_min ≤ high)
    | _, _ => false
  | "consistent_mid_sleep_timing" =>
    (midpoint_median.map fun m => within_clock_minute_band s.midpoint_clock_min m 60).getD false
  | "weekday_schedule_alignment" =>
    if s.weekend then
      (midpoint_median.map fun m => within_clock_minute_band s.midpoint_clock_min m 90).getD false
    else true
  | _ => false

/-- trends.rs `factor_effect` closure (lines 865-907): mean-quality difference
between favorable and unfavorable samples, requiring at least 5 on each side. -/
def factor_effect (samples : List DaySample) (midpoint_median p10 p90 : Option ℚ)
    (factor : String) : Option ℚ :=
  let tagged := samples.filterMap fun s =>
    s.quality.map fun q => (is_favorable midpoint_median p10 p90 factor s, q)
  let favorable := (tagged.filter fun t => t.1).map fun t => t.2
  let unfavorable := (tagged.filter fun t => !t.1).map fun t => t.2
  if favorable.length < 5 ∨ unfavorable.length < 5 then Option.none
  else some (favorable.sum / (favorable.length : ℚ) - unfavorable.sum / (unfavorable.length : ℚ))

/-- trends.rs lines 909-913. -/
def quality_factors : List String :=
  ["duration_in_personal_range", "consistent_mid_sleep_timing", "weekday_schedule_alignment"]

/-- Midpoint median of a whole window (trends.rs lines 844-855). -/
def window_midpoint_median (samples : List DaySample) : Option ℚ :=
  median (samples.map fun s => s.midpoint_clock_min)

/-- trends.rs lines 915-947: accumulate ranked factors (unsorted) with the
`stable_effects` flag; matches the source's loop over the three factors. -/
def quality_factor_scan (current_samples prior_samples : List DaySample) :
    List RankedQualityFactor × Bool :=
  quality_factors.foldl
    (fun acc factor =>
      match factor_effect current_samples (window_midpoint_median current_samples)
              (percentile_linear (current_durations current_samples) (1/10))
              (percentile_linear (current_durations current_samples) (9/10)) factor,
            factor_effect prior_samples (window_midpoint_median prior_samples)
              (percentile_linear (prior_durations prior_samples) (1/10))
              (percentile_linear (prior_durations prior_samples) (9/10)) factor with
      | some c, some p =>
        (acc.1 ++ [{ factor := factor, effect := c }],
         acc.2 && decide (f64_signum c = f64_signum p))
      | _, _ => (acc.1, false))
    ([], true)

/-- Descending order on the absolute effect, the comparator of
trends.rs line 948. -/
def effect_abs_ge (a b : RankedQualityFactor) : Prop := |b.effect| ≤ |a.effect|

instance : DecidableRel effect_abs_ge := fun a b =>
  inferInstanceAs (Decidable (|b.effect| ≤ |a.effect|))

/-- The quality-factor ranking metric of `build_personalization_calc`
(trends.rs lines 834-842, 915-951 and 987-993). -/
def quality_metric (current_samples prior_samples : List DaySample) :
    QualityFactorRankingMetric :=
  let scan := quality_factor_scan current_samples prior_samples
  { eligible := (decide (40 ≤ (quality_samples_current current_samples).length) &&
      decide (3 ≤ distinct_quality_values current_samples)) && scan.2,
    sessions_with_quality := (quality_samples_current current_samples).length,
    distinct_quality_values := distinct_quality_values current_samples,
    stable_across_adjacent_windows := scan.2,
    ranked_factors := (List.insertionSort effect_abs_ge scan.1).take 3 }

/-- trends.rs `build_recommendations` (lines 1018-1196), transcribed branch by
branch; the `Vec` pushes become conditional list segments in push order. -/
def build_recommendations (duration_trigger : Bool)
    (duration_metric : DurationBaselineMetric)
    (day_type_metric : DayTypeTimingBaselineMetric)
    (social_metric : SocialJetlagMetric)
    (variability_metric : ScheduleVariabilityMetric)
    (quality_metric : QualityFactorRankingMetric) : List ActionRecommendation :=
  let duration_suppression : List String :=
    (if !duration_metric.eligible then
      ["needs at least 60 baseline sessions in prior window"] else []) ++
    (if !duration_trigger then
      ["recent out-of-range incidence is below 5% trigger"] else []) ++
    ["schedule disruption guardrail unavailable from current data (travel/shift period not inferred)"]
  let day_type_suppression : List String :=
    (if decide (day_type_metric.weekday_sample_days < 8) ||
        decide (day_type_metric.weekend_sample_days < 4) then
      ["requires >=8 weekday and >=4 weekend sessions in current window"] else []) ++
    (if !day_type_metric.midpoint_stable_across_windows then
      ["day-type midpoint medians are not stable across adjacent windows"] else []) ++
    (if day_type_metric.recent_14_day_diverges_from_baseline then
      ["recent 14-day pattern strongly diverges from baseline"] else [])
  let social_suppression : List String :=
    (if decide (social_metric.weekend_sample_days < 4) then
      ["weekend sample too small (<4 sessions)"] else []) ++
    (if !social_metric.sustained_two_windows then
      ["social jetlag delta is not >=30 min for two consecutive windows"] else [])
  let variability_suppression : List String :=
    (if !variability_metric.sustained_two_windows then
      ["schedule variability is not >=60 minutes across two windows"] else []) ++
    (if variability_metric.high_data_gap then
      ["data gaps exceed 30% of current window"] else [])
  let quality_suppression : List String :=
    (if decide (quality_metric.sessions_with_quality < 40) then
      ["requires at least 40 sessions with quality"] else []) ++
    (if decide (quality_metric.distinct_quality_values < 3) then
      ["requires at least 3 distinct quality values"] else []) ++
    (if !quality_metric.stable_across_adjacent_windows then
      ["factor effects are not stable across adjacent windows"] else [])
  [{ action_key := "personal_duration_warning_tuning",
     status := if duration_metric.eligible && duration_trigger then
       RecommendationStatus.recommended else RecommendationStatus.suppressed,
     confidence := if duration_metric.eligible && duration_trigger then
       Confidence.medium else Confidence.low,
     rationale := "Replace static unusual-duration warning with personal duration tails",
     suppression_reasons := if duration_metric.eligible && duration_trigger then []
       else duration_suppression },
   { action_key := "day_type_default_prefill",
     status := if day_type_metric.eligible &&
         !day_type_metric.recent_14_day_diverges_from_baseline then
       RecommendationStatus.recommended else RecommendationStatus.suppressed,
     confidence := if day_type_metric.eligible then Confidence.medium else Confidence.low,
     rationale := "Offer weekday/weekend usual-time defaults when day-type baselines are stable",
     suppression_reasons := if day_type_metric.eligible &&
         !day_type_metric.recent_14_day_diverges_from_baseline then []
       else day_type_suppression },
   { action_key := "social_jetlag_schedule_shift_insight",
     status := if social_metric.eligible && social_metric.sustained_two_windows then
       RecommendationStatus.recommended else RecommendationStatus.suppressed,
     confidence := if social_metric.eligible && social_metric.sustained_two_windows then
       Confidence.high else Confidence.low,
     rationale := "Show weekend-vs-weekday midpoint shift insight when phase shift persists",
     suppression_reasons := if social_metric.eligible && social_metric.sustained_two_windows then []
       else social_suppression },
   { action_key := "regularity_insight_priority",
     status := if variability_metric.eligible && variability_metric.sustained_two_windows &&
         !variability_metric.high_data_gap then
       RecommendationStatus.recommended else RecommendationStatus.suppressed,
     confidence := if variability_metric.eligible && variability_metric.sustained_two_windows then
       Confidence.medium else Confidence.low,
     rationale := "Prioritize regularity insight when timing dispersion is persistently high",
     suppression_reasons := if variability_metric.eligible &&
         variability_metric.sustained_two_windows && !variability_metric.high_data_gap then []
       else variability_suppression },
   { action_key := "quality_aligned_factor_explanation",
     status := if quality_metric.eligible then
       RecommendationStatus.recommended else RecommendationStatus.suppressed,
     confidence := if quality_metric.eligible then Confidence.medium else Confidence.low,
     rationale := "Surface top associated factors for higher-quality nights using directional language",
     suppression_reasons := if quality_metric.eligible then [] else quality_suppression }]

/-- trends.rs `build_personalization_calc` (lines 689-1016), assembled from the
named metric definitions above (the source computes the same values inline in
one function body). -/
def build_personalization_calc (current_samples prior_samples : List DaySample)
    (current_from current_to prior_from prior_to : ℤ) (window_days : ℤ) :
    PersonalizationCalc :=
  { current_window := window_stats current_from current_to current_samples window_days,
    prior_window := window_stats prior_from prior_to prior_samples window_days,
    metrics :=
      { duration_baseline := duration_metric current_samples prior_samples,
        day_type_timing_baseline := day_type_metric current_samples prior_samples,
        social_jetlag := social_metric current_samples prior_samples,
        schedule_variability :=
          variability_metric current_samples prior_samples current_from current_to window_days,
        quality_factor_ranking := quality_metric current_samples prior_samples },
    recommendations := build_recommendations
      (duration_trigger current_samples prior_samples)
      (duration_metric current_samples prior_samples)
      (day_type_metric current_samples prior_samples)
      (social_metric current_samples prior_samples)
      (variability_metric current_samples prior_samples current_from current_to window_days)
      (quality_metric current_samples prior_samples) }

/- ===================== TimeResolver (src/sleep-api/src/time.rs) ========================== -/

/-- domain.rs `DomainError`, restricted to the variant `compute_duration_min`
can produce. -/
inductive DomainError where
  | invalidInput (msg : String)
deriving DecidableEq

/-- The three shapes of `chrono::LocalResult` relevant to `resolve_local`. -/
inductive LocalRes where
  | single (dt : ℤ)
  | ambiguous (earliest latest : ℤ)
  | nonexistent
deriving DecidableEq

/-- Abstract timezone: classifies each local naive timestamp (minutes since
midnight of day 0) into a `LocalResult`; instants are UTC minutes. -/
structure TzModel where
  fromLocal : ℤ → LocalRes

/-- The bounded forward scan of `resolve_local`'s `LocalResult::None` arm
(time.rs lines 31-41): check up to `fuel` successive minutes. -/
def dst_gap_scan (tz : TzModel) : ℕ → ℤ → Option ℤ
  | 0, _ => Option.none
  | fuel + 1, cur =>
    match tz.fromLocal cur with
    | LocalRes.single dt => some dt
    | LocalRes.ambiguous earliest _ => some earliest
    | LocalRes.nonexistent => dst_gap_scan tz fuel (cur + 1)

/-- time.rs `resolve_local` (lines 26-51): ambiguous picks the earliest
instant; a nonexistent time scans forward up to `MAX_DST_GAP_MINUTES = 180`
minutes; if the scan fails, fall back to interpreting the naive timestamp as
UTC (whose instant is the timestamp itself). -/
def resolve_local (tz : TzModel) (ndt : ℤ) : ℤ :=
  match tz.fromLocal ndt with
  | LocalRes.single dt => dt
  | LocalRes.ambiguous earliest _ => earliest
  | LocalRes.nonexistent => (dst_gap_scan tz 180 ndt).getD ndt

/-- `chrono::NaiveDate::pred_opt`: `Option.none` exactly at the calendar
minimum (day 0 in this model). -/
def pred_opt (d : ℤ) : Option ℤ := if d = 0 then Option.none else some (d - 1)

/-- time.rs lines 93-99: the bed calendar date under wake-date semantics. -/
def bed_date_of (wake_date bed_time wake_time : ℤ) : Option ℤ :=
  if wake_time < bed_time then pred_opt wake_date else some wake_date

/-- time.rs `compute_duration_min` (lines 87-120); times are minutes of the
day, a naive datetime is `date * 1440 + time`, and the `i32::MAX` guard is the
literal `2147483647`. -/
def compute_duration_min (tz : TzModel) (wake_date bed_time wake_time : ℤ) :
    Except DomainError ℤ :=
  match bed_date_of wake_date bed_time wake_time with
  | Option.none => Except.error (DomainError.invalidInput "invalid date (underflow)")
  | some bed_date =>
    let bed_utc := resolve_local tz (bed_date * 1440 + bed_time)
    let wake_utc := resolve_local tz (wake_date * 1440 + wake_time)
    let mins := wake_utc - bed_utc
    if mins ≤ 0 then Except.error (DomainError.invalidInput "Duration must be positive")
    else if 2147483647 < mins then Except.error (DomainError.invalidInput "Duration too large")
    else Except.ok mins

/-- The raw minute difference `compute_duration_min` tests against its guards
(defined whenever the bed date does not underflow; junk value 0 otherwise). -/
def raw_duration_min (tz : TzModel) (wake_date bed_time wake_time : ℤ) : ℤ :=
  match bed_date_of wake_date bed_time wake_time with
  | some bed_date =>
    resolve_local tz (wake_date * 1440 + wake_time) - resolve_local tz (bed_date * 1440 + bed_time)
  | Option.none => 0

/- ===================== WindowComparator ================================================= -/

/-- error.rs `ApiError`, restricted to the variant the window comparators can
produce before touching the database. -/
inductive ApiError where
  | invalidInput (msg : String)
deriving DecidableEq

/-- `chrono::NaiveDate::checked_sub_signed(Duration::days k)` for `k ≥ 0`:
fails exactly when the result would drop below the calendar minimum (day 0). -/
def checked_sub_days (d k : ℤ) : Option ℤ := if d - k < 0 then Option.none else some (d - k)

/-- trends.rs `personalization` window computation (lines 450-470):
validate `window_days ∈ [1, 365]`, then `current_from`, `prior_to`,
`prior_from`; each checked date operation surfaces `InvalidInput` on failure.
Returns `(current_from, prior_to, prior_from)`. -/
def personalization_window_bounds (window_days as_of : ℤ) :
    Except ApiError (ℤ × ℤ × ℤ) :=
  if ¬(1 ≤ window_days ∧ window_days ≤ 365) then
    Except.error (ApiError.invalidInput "window_days must be between 1 and 365")
  else
    match checked_sub_days as_of (window_days - 1) with
    | Option.none => Except.error (ApiError.invalidInput "invalid date range")
    | some current_from =>
      match pred_opt current_from with
      | Option.none => Except.error (ApiError.invalidInput "invalid date range")
      | some prior_to =>
        match checked_sub_days prior_to (window_days - 1) with
        | Option.none => Except.error (ApiError.invalidInput "invalid date range")
        | some prior_from => Except.ok (current_from, prior_to, prior_from)

/-- handlers.rs `friction_backlog` window computation (lines 204-219),
textually identical to the personalization one. -/
def friction_window_bounds (window_days as_of : ℤ) :
    Except ApiError (ℤ × ℤ × ℤ) :=
  if ¬(1 ≤ window_days ∧ window_days ≤ 365) then
    Except.error (ApiError.invalidInput "window_days must be between 1 and 365")
  else
    match checked_sub_days as_of (window_days - 1) with
    | Option.none => Except.error (ApiError.invalidInput "invalid date range")
    | some current_from =>
      match pred_opt current_from with
      | Option.none => Except.error (ApiError.invalidInput "invalid date range")
      | some prior_to =>
        match checked_sub_days prior_to (window_days - 1) with
        | Option.none => Except.error (ApiError.invalidInput "invalid date range")
        | some prior_from => Except.ok (current_from, prior_to, prior_from)

/- ===================== FrictionBacklogRanker (src/sleep-api/src/handlers.rs) ============= -/

/-- models/friction.rs `FrictionWindowAggregate` (lines 26-38). -/
structure FrictionWindowAggregate where
  submit_count : ℤ
  median_form_time_ms : ℚ
  avg_form_time_ms : ℚ
  error_count : ℤ
  retries_total : ℤ
  retries_avg : ℚ
  immediate_edit_count : ℤ
  follow_up_failure_count : ℤ
  error_rate : ℚ
  immediate_edit_rate : ℚ
  follow_up_failure_rate : ℚ
deriving DecidableEq

/-- models/friction.rs `FrictionErrorKindAggregate` (lines 41-48). -/
structure FrictionErrorKindAggregate where
  error_kind : String
  occurrences : ℤ
  retries_total : ℤ
  avg_form_time_ms : ℚ
  immediate_edit_count : ℤ
  follow_up_failure_count : ℤ
deriving DecidableEq

/-- handlers.rs `FrictionProposalConfidence` (lines 102-117). -/
inductive FrictionProposalConfidence where
  | high
  | medium
  | low
deriving DecidableEq

/-- handlers.rs `at_least_medium` (lines 110-117). -/
def FrictionProposalConfidence.at_least_medium : FrictionProposalConfidence → Bool
  | FrictionProposalConfidence.high => true
  | FrictionProposalConfidence.medium => true
  | FrictionProposalConfidence.low => false

/-- handlers.rs `FrictionProposalEvidence` (lines 119-131). -/
structure FrictionProposalEvidence where
  current_occurrences : ℤ
  prior_occurrences : ℤ
  current_submit_count : ℤ
  prior_submit_count : ℤ
  current_avg_form_time_ms : ℚ
  prior_avg_form_time_ms : ℚ
  current_retry_avg : ℚ
  prior_retry_avg : ℚ
  current_follow_up_failure_rate : ℚ
  prior_follow_up_failure_rate : ℚ
deriving DecidableEq

/-- handlers.rs `FrictionBacklogProposal` (lines 133-144). -/
structure FrictionBacklogProposal where
  rank : ℕ
  action_key : String
  observed_evidence : FrictionProposalEvidence
  expected_benefit : String
  estimated_minutes_saved_per_week : ℚ
  confidence : FrictionProposalConfidence
  persistence_two_windows : Bool
  rollback_condition : String
  auto_promoted : Bool
deriving DecidableEq

/-- Model of `String::replace(' ', "_")`: every space becomes an underscore. -/
def underscore_spaces (s : String) : String :=
  String.mk (s.data.map fun c => if c = ' ' then '_' else c)

/-- The body of the proposal loop in handlers.rs `friction_backlog`
(lines 248-345), for one current-window error kind; the `HashMap` lookup of
the prior aggregate becomes `List.find?` (kinds are distinct, grouped by the
SQL query). -/
def mk_friction_proposal (window_days : ℤ) (minimum_sample_met : Bool)
    (current_submit prior_submit : ℤ) (prior_kinds : List FrictionErrorKindAggregate)
    (current : FrictionErrorKindAggregate) : FrictionBacklogProposal :=
  let looked := prior_kinds.find? fun p => p.error_kind == current.error_kind
  let prior_occurrences := (looked.map fun p => p.occurrences).getD 0
  let persistence_two_windows := decide (0 < current.occurrences) && decide (0 < prior_occurrences)
  let prior_avg_form_time_ms := (looked.map fun p => p.avg_form_time_ms).getD 0
  let prior_retry_avg := (looked.map fun p =>
    if 0 < p.occurrences then (p.retries_total : ℚ) / (p.occurrences : ℚ) else 0).getD 0
  let current_retry_avg :=
    if 0 < current.occurrences then (current.retries_total : ℚ) / (current.occurrences : ℚ) else 0
  let current_follow_up_failure_rate :=
    if 0 < current.occurrences then
      (current.follow_up_failure_count : ℚ) / (current.occurrences : ℚ) else 0
  let prior_follow_up_failure_rate := (looked.map fun p =>
    if 0 < p.occurrences then (p.follow_up_failure_count : ℚ) / (p.occurrences : ℚ) else 0).getD 0
  let delta_form_minutes := max (current.avg_form_time_ms - prior_avg_form_time_ms) 0 / 60000
  let delta_retry := max (current_retry_avg - prior_retry_avg) 0
  let delta_failure_rate := max (current_follow_up_failure_rate - prior_follow_up_failure_rate) 0
  let events_per_week := (current.occurrences : ℚ) * 7 / (window_days : ℚ)
  let estimated_minutes_saved_per_week :=
    max (events_per_week * (delta_form_minutes + delta_retry * (3/4) + delta_failure_rate * (3/2))) 0
  let confidence :=
    if minimum_sample_met && persistence_two_windows &&
        decide (12 ≤ current.occurrences) && decide (12 ≤ prior_occurrences) then
      FrictionProposalConfidence.high
    else if minimum_sample_met && persistence_two_windows &&
        decide (4 ≤ current.occurrences) && decide (4 ≤ prior_occurrences) then
      FrictionProposalConfidence.medium
    else FrictionProposalConfidence.low
  { rank := 0,
    action_key := "friction_reduction_" ++ underscore_spaces current.error_kind,
    observed_evidence :=
      { current_occurrences := current.occurrences,
        prior_occurrences := prior_occurrences,
        current_submit_count := current_submit,
        prior_submit_count := prior_submit,
        current_avg_form_time_ms := current.avg_form_time_ms,
        prior_avg_form_time_ms := prior_avg_form_time_ms,
        current_retry_avg := current_retry_avg,
        prior_retry_avg := prior_retry_avg,
        current_follow_up_failure_rate := current_follow_up_failure_rate,
        prior_follow_up_failure_rate := prior_follow_up_failure_rate },
    expected_benefit := "Reduce repeated '" ++ current.error_kind ++
      "' friction by lowering retries and form time variance",
    estimated_minutes_saved_per_week := estimated_minutes_saved_per_week,
    confidence := confidence,
    persistence_two_windows := persistence_two_windows,
    rollback_condition :=
      "Downgrade if pattern no longer persists for two windows or confidence falls below medium",
    auto_promoted := confidence.at_least_medium && persistence_two_windows }

/-- Descending order on the estimated benefit, the comparator of
handlers.rs lines 348-351 (`b.total_cmp(&a)`). -/
def benefit_ge (a b : FrictionBacklogProposal) : Prop :=
  b.estimated_minutes_saved_per_week ≤ a.estimated_minutes_saved_per_week

instance : DecidableRel benefit_ge := fun a b =>
  inferInstanceAs (Decidable (_ ≤ _))

instance : IsTotal FrictionBacklogProposal benefit_ge :=
  ⟨fun a b => le_total b.estimated_minutes_saved_per_week a.estimated_minutes_saved_per_week⟩

instance : IsTrans FrictionBacklogProposal benefit_ge :=
  ⟨fun _ _ _ hab hbc => le_trans hbc hab⟩

/-- The rank-assignment loop of handlers.rs lines 352-354: the proposal at
0-based position `j` receives rank `i + j + 1` when starting from index `i`. -/
def assign_ranks (i : ℕ) : List FrictionBacklogProposal → List FrictionBacklogProposal
  | [] => []
  | p :: rest => { p with rank := i + 1 } :: assign_ranks (i + 1) rest

/-- The pure proposal pipeline of handlers.rs `friction_backlog`
(lines 246-354): build one proposal per current-window error kind, sort by
descending estimated benefit, assign 1-based ranks.  The database reads
feeding `current_agg`, `prior_agg`, `current_kinds` and `prior_kinds` are the
external persistence collaborator. -/
def friction_backlog_proposals (window_days : ℤ)
    (current_agg prior_agg : FrictionWindowAggregate)
    (current_kinds prior_kinds : List FrictionErrorKindAggregate) :
    List FrictionBacklogProposal :=
  let minimum_sample_met := decide (30 ≤ current_agg.submit_count)
  assign_ranks 0 (List.insertionSort benefit_ge
    (current_kinds.map
      (mk_friction_proposal window_days minimum_sample_met
        current_agg.submit_count prior_agg.submit_count prior_kinds)))

/- ===================== Proof infrastructure and concrete inputs ========================== -/

/-- Uniform closed form of `percentile_linear`'s interpolation at rank `r`
over an already sorted list (both branches of the source computation agree
with it); proof infrastructure. -/
def interp_at (s : List ℚ) (r : ℚ) : ℚ :=
  s.getD ⌊r⌋.toNat 0 + (r - (⌊r⌋.toNat : ℚ)) * (s.getD ⌈r⌉.toNat 0 - s.getD ⌊r⌋.toNat 0)

/-- A trivial timezone: every local timestamp is a single instant equal to
itself (UTC). -/
def utc_tz : TzModel := { fromLocal := fun t => LocalRes.single t }

/-- A concrete spring-forward timezone: on day 100 the local minutes
[02:00, 03:00) do not exist; before the gap UTC = local + 300 (offset -05:00),
at and after the gap end UTC = local + 240 (offset -04:00).  This is the shape
of America/New_York on a DST start date. -/
def spring_forward_tz : TzModel :=
  { fromLocal := fun t =>
      if t < 100 * 1440 + 120 then LocalRes.single (t + 300)
      else if t < 100 * 1440 + 180 then LocalRes.nonexistent
      else LocalRes.single (t + 240) }

/-- Concrete `DaySample` with the given wake date, weekend flag and circular
midpoint. -/
def sample_ex (d : ℤ) (we : Bool) (mid : ℚ) : DaySample :=
  { wake_date := d, bed_clock_min := 1380, wake_clock_min := 420,
    bed_relative_min := -60, wake_relative_min := 420,
    midpoint_clock_min := mid, duration_min := 480, quality := Option.none, weekend := we }

/-- Current window with 1 weekday sample (midpoint 0) and 5 weekend samples
(midpoint 60). -/
def current_ex : List DaySample :=
  [sample_ex 0 false 0, sample_ex 1 true 60, sample_ex 2 true 60,
   sample_ex 3 true 60, sample_ex 4 true 60, sample_ex 5 true 60]

/-- Prior window with 1 weekday sample (midpoint 0) and only 3 weekend
samples (midpoint 60). -/
def prior_ex : List DaySample :=
  [sample_ex 10 false 0, sample_ex 11 true 60, sample_ex 12 true 60, sample_ex 13 true 60]

/-- An all-zero window aggregate (submit counts are irrelevant to ranking). -/
def friction_agg_ex : FrictionWindowAggregate :=
  { submit_count := 0, median_form_time_ms := 0, avg_form_time_ms := 0, error_count := 0,
    retries_total := 0, retries_avg := 0, immediate_edit_count := 0,
    follow_up_failure_count := 0, error_rate := 0, immediate_edit_rate := 0,
    follow_up_failure_rate := 0 }

/-- Error kind whose estimated benefit works out to 12.0 minutes/week
(4 occurrences, retry average 4, window of 7 days, empty prior window). -/
def kind12_ex : FrictionErrorKindAggregate :=
  { error_kind := "k12", occurrences := 4, retries_total := 16, avg_form_time_ms := 0,
    immediate_edit_count := 0, follow_up_failure_count := 0 }

/-- Error kind whose estimated benefit works out to 30.0 minutes/week
(10 occurrences, retry average 4, window of 7 days, empty prior window). -/
def kind30_ex : FrictionErrorKindAggregate :=
  { error_kind := "k30", occurrences := 10, retries_total := 40, avg_form_time_ms := 0,
    immediate_edit_count := 0, follow_up_failure_count := 0 }

/-- The social-jetlag exception to "suppression reasons are empty iff
recommended": the delta is sustained in both windows and the current window
has at least 4 weekend samples, but the prior window has fewer than 4, so the
metric is ineligible (status suppressed) while no suppression reason is
recorded. -/
def social_suppressed_empty_exception (current_samples prior_samples : List DaySample) : Prop :=
  (social_metric current_samples prior_samples).sustained_two_windows = true ∧
  4 ≤ (social_jetlag_delta current_samples).2 ∧
  (social_jetlag_delta prior_samples).2 < 4

/- ===================== Helper lemmas ===================================================== -/

theorem rem_euclid_bounds (x y : ℚ) (hy : 0 < y) :
    0 ≤ rem_euclid x y ∧ rem_euclid x y < y := by
  have h1 : (⌊x / y⌋ : ℚ) ≤ x / y := Int.floor_le _
  have h2 : x / y < ⌊x / y⌋ + 1 := Int.lt_floor_add_one _
  have hxy : y * (x / y) = x := by field_simp
  constructor
  · have h3 := mul_le_mul_of_nonneg_left h1 hy.le
    rw [hxy] at h3
    unfold rem_euclid
    linarith
  · have h3 := mul_lt_mul_of_pos_left h2 hy
    rw [hxy] at h3
    unfold rem_euclid
    nlinarith

/- ===================== C2 ================================================================ -/

/-- C2, counterexample: at `later = 720`, `earlier = 0` the signed circular
delta is exactly `-720`, which does not lie in the claimed half-open-above
interval `(-720, 720]`. -/
theorem circular_signed_minutes_delta_outside_Ioc :
    circular_signed_minutes_delta 720 0 = -720 ∧
    ¬(-720 < circular_signed_minutes_delta 720 0 ∧
      circular_signed_minutes_delta 720 0 ≤ 720) := by
  have h : circular_signed_minutes_delta 720 0 = -720 := by
    unfold circular_signed_minutes_delta rem_euclid
    rw [show ((720 : ℚ) - 0 + 24 * 60 / 2) / (24 * 60) = 1 by norm_num]
    norm_num
  refine ⟨h, ?_⟩
  rw [h]
  norm_num

/-- C2 (amended): for all times of day, `circular_signed_minutes_delta`
equals `((later - earlier + 720) mod 1440) - 720` and its result lies in the
half-open-below interval `[-720, 720)` (the code attains `-720` and never
`720`, the reverse of the claimed interval). -/
theorem circular_signed_minutes_delta_range (later earlier : ℚ) :
    circular_signed_minutes_delta later earlier =
      rem_euclid (later - earlier + 720) 1440 - 720 ∧
    -720 ≤ circular_signed_minutes_delta later earlier ∧
    circular_signed_minutes_delta later earlier < 720 := by
  have hb := rem_euclid_bounds (later - earlier + 24 * 60 / 2) (24 * 60) (by norm_num)
  unfold circular_signed_minutes_delta
  norm_num at hb ⊢
  constructor
  · linarith [hb.1]
  · linarith [hb.2]

/- ===================== C5 ================================================================ -/

/-- C5, counterexample: at the calendar minimum (`as_of` = day 0, i.e.
`NaiveDate::MIN`) with the in-range `window_days = 7`, the comparator returns
`InvalidInput` instead of computing the window bounds, because
`checked_sub_signed` underflows. -/
theorem personalization_window_bounds_at_min :
    personalization_window_bounds 7 0 =
      Except.error (ApiError.invalidInput "invalid date range") := rfl

/-- C5 (amended): for `window_days ∈ [1, 365]` and any `as_of` far enough
above the calendar minimum that `prior_from` does not underflow, both window
comparators compute `current_from = as_of - (window_days - 1)`,
`prior_to = current_from - 1`, `prior_from = prior_to - (window_days - 1)`
(contiguous, non-overlapping, equal-length windows); for `window_days`
outside `[1, 365]` both return `InvalidInput` before any computation.  At the
extreme lower edge of the calendar the checked date arithmetic instead
surfaces `InvalidInput "invalid date range"`. -/
theorem window_bounds_formulas (window_days as_of : ℤ) :
    (1 ≤ window_days → window_days ≤ 365 → 0 ≤ as_of - 2 * (window_days - 1) - 1 →
      personalization_window_bounds window_days as_of =
        Except.ok (as_of - (window_days - 1), as_of - (window_days - 1) - 1,
          as_of - (window_days - 1) - 1 - (window_days - 1)) ∧
      friction_window_bounds window_days as_of =
        Except.ok (as_of - (window_days - 1), as_of - (window_days - 1) - 1,
          as_of - (window_days - 1) - 1 - (window_days - 1)) ∧
      (as_of - (window_days - 1) - 1) + 1 = as_of - (window_days - 1) ∧
      (as_of - (window_days - 1) - 1) < as_of - (window_days - 1) ∧
      as_of - (as_of - (window_days - 1)) =
        (as_of - (window_days - 1) - 1) - (as_of - (window_days - 1) - 1 - (window_days - 1))) ∧
    (¬(1 ≤ window_days ∧ window_days ≤ 365) →
      personalization_window_bounds window_days as_of =
        Except.error (ApiError.invalidInput "window_days must be between 1 and 365") ∧
      friction_window_bounds window_days as_of =
        Except.error (ApiError.invalidInput "window_days must be between 1 and 365")) := by
  constructor
  · intro h1 h365 hmin
    have hc1 : ¬(as_of - (window_days - 1) < 0) := by omega
    have hc2 : ¬(as_of - (window_days - 1) = 0) := by omega
    have hc3 : ¬(as_of - (window_days - 1) - 1 - (window_days - 1) < 0) := by omega
    have hrange : ¬¬(1 ≤ window_days ∧ window_days ≤ 365) := not_not_intro ⟨h1, h365⟩
    refine ⟨?_, ?_, by omega, by omega, by omega⟩ <;>
      simp only [personalization_window_bounds, friction_window_bounds, checked_sub_days,
        pred_opt, if_neg hrange, if_neg hc1, if_neg hc2, if_neg hc3]
  · intro h
    exact ⟨by simp only [personalization_window_bounds, if_pos h],
           by simp only [friction_window_bounds, if_pos h]⟩

/-- Witness for `window_bounds_formulas` at `window_days = 7`,
`as_of = day 20`. -/
theorem window_bounds_formulas_witness :
    personalization_window_bounds 7 20 = Except.ok (14, 13, 7) ∧
    friction_window_bounds 7 20 = Except.ok (14, 13, 7) := by
  obtain ⟨h1, h2, -⟩ := (window_bounds_formulas 7 20).1 (by norm_num) (by norm_num) (by norm_num)
  norm_num at h1 h2
  exact ⟨h1, h2⟩

/- ===================== C3 ================================================================ -/

/-- C3: `compute_duration_min` returns `InvalidInput` exactly when the bed
date underflows the calendar (crossing midnight at `NaiveDate::MIN`) or when
the computed raw duration is `≤ 0` or exceeds `i32::MAX`; in every other case
it returns that raw duration.  Resolution itself (`resolve_local`, including
the DST-gap fallback) is total and never contributes an error. -/
theorem compute_duration_min_error_iff (tz : TzModel) (wake_date bed_time wake_time : ℤ) :
    ((∃ e, compute_duration_min tz wake_date bed_time wake_time = Except.error e) ↔
      ((wake_time < bed_time ∧ wake_date = 0) ∨
        (¬(wake_time < bed_time ∧ wake_date = 0) ∧
          (raw_duration_min tz wake_date bed_time wake_time ≤ 0 ∨
            2147483647 < raw_duration_min tz wake_date bed_time wake_time)))) ∧
    (∀ m, compute_duration_min tz wake_date bed_time wake_time = Except.ok m →
      m = raw_duration_min tz wake_date bed_time wake_time) := by
  by_cases hcross : wake_time < bed_time
  · by_cases hz : wake_date = 0
    · subst hz
      simp only [compute_duration_min, raw_duration_min, bed_date_of, pred_opt,
        if_pos hcross, if_pos rfl]
      simp [hcross]
    · simp only [compute_duration_min, raw_duration_min, bed_date_of, pred_opt,
        if_pos hcross, if_neg hz]
      constructor
      · by_cases hle : resolve_local tz (wake_date * 1440 + wake_time) -
            resolve_local tz ((wake_date - 1) * 1440 + bed_time) ≤ 0
        · simp [if_pos hle, hle, hz]
        · by_cases hbig : 2147483647 < resolve_local tz (wake_date * 1440 + wake_time) -
              resolve_local tz ((wake_date - 1) * 1440 + bed_time)
          · simp [if_neg hle, if_pos hbig, hle, hbig, hz]
          · simp [if_neg hle, if_neg hbig, hle, hbig, hz]
      · intro m hm
        split_ifs at hm
        injection hm with h
        omega
  · simp only [compute_duration_min, raw_duration_min, bed_date_of, pred_opt, if_neg hcross]
    constructor
    · by_cases hle : resolve_local tz (wake_date * 1440 + wake_time) -
          resolve_local tz (wake_date * 1440 + bed_time) ≤ 0
      · simp [if_pos hle, hle, hcross]
      · by_cases hbig : 2147483647 < resolve_local tz (wake_date * 1440 + wake_time) -
            resolve_local tz (wake_date * 1440 + bed_time)
        · simp [if_neg hle, if_pos hbig, hle, hbig, hcross]
        · simp [if_neg hle, if_neg hbig, hle, hbig, hcross]
    · intro m hm
      split_ifs at hm
      injection hm with h
      omega

/-- Witness for `compute_duration_min_error_iff`: a crossing session keyed to
the calendar minimum underflows and errors. -/
theorem compute_duration_min_error_iff_witness :
    ∃ e, compute_duration_min utc_tz 0 600 300 = Except.error e :=
  (compute_duration_min_error_iff utc_tz 0 600 300).1.mpr (Or.inl ⟨by norm_num, rfl⟩)

/- ===================== C4 ================================================================ -/

/-- C4, counterexample: on the spring-forward day of `spring_forward_tz`, a
non-crossing session bed 01:00 → wake 05:00 has both endpoints resolving
unambiguously (`LocalResult::Single`), yet the computed duration is 180
minutes, not the claimed `wake_time - bed_time = 240`: a DST transition lies
between the two instants. -/
theorem compute_duration_min_gap_between_counterexample :
    spring_forward_tz.fromLocal (100 * 1440 + 60) = LocalRes.single (100 * 1440 + 360) ∧
    spring_forward_tz.fromLocal (100 * 1440 + 300) = LocalRes.single (100 * 1440 + 540) ∧
    compute_duration_min spring_forward_tz 100 60 300 = Except.ok 180 ∧
    (180 : ℤ) ≠ 300 - 60 := by
  refine ⟨rfl, rfl, rfl, by norm_num⟩

/-- C4 (amended): for every timezone, wake date and non-crossing session
(`bed_time < wake_time`) where both local timestamps resolve unambiguously
*with the same UTC offset*, `compute_duration_min` returns exactly
`wake_time - bed_time`. -/
theorem compute_duration_min_non_crossing (tz : TzModel)
    (wake_date bed_time wake_time s1 s2 : ℤ)
    (h0 : 0 ≤ bed_time) (hlt : bed_time < wake_time) (h1440 : wake_time < 1440)
    (hbed : tz.fromLocal (wake_date * 1440 + bed_time) = LocalRes.single s1)
    (hwake : tz.fromLocal (wake_date * 1440 + wake_time) = LocalRes.single s2)
    (hoff : s1 - (wake_date * 1440 + bed_time) = s2 - (wake_date * 1440 + wake_time)) :
    compute_duration_min tz wake_date bed_time wake_time =
      Except.ok (wake_time - bed_time) := by
  have hcross : ¬(wake_time < bed_time) := by omega
  have hm : s2 - s1 = wake_time - bed_time := by omega
  simp only [compute_duration_min, bed_date_of, if_neg hcross, resolve_local, hbed, hwake]
  rw [hm, if_neg (by omega), if_neg (by omega)]

/-- Witness for `compute_duration_min_non_crossing` in the trivial UTC
timezone. -/
theorem compute_duration_min_non_crossing_witness :
    compute_duration_min utc_tz 3 600 1000 = Except.ok (1000 - 600) :=
  compute_duration_min_non_crossing utc_tz 3 600 1000 (3 * 1440 + 600) (3 * 1440 + 1000)
    (by norm_num) (by norm_num) (by norm_num) rfl rfl (by norm_num)

/- ===================== C7 ================================================================ -/

theorem assign_ranks_length (i : ℕ) (l : List FrictionBacklogProposal) :
    (assign_ranks i l).length = l.length := by
  induction l generalizing i with
  | nil => rfl
  | cons p rest ih => simp [assign_ranks, ih]

theorem assign_ranks_get (i : ℕ) (l : List FrictionBacklogProposal) (j : ℕ)
    (h : j < (assign_ranks i l).length) :
    ((assign_ranks i l).get ⟨j, h⟩).rank = i + j + 1 := by
  induction l generalizing i j with
  | nil => simp [assign_ranks] at h
  | cons p rest ih =>
    cases j with
    | zero => simp [assign_ranks]
    | succ j' =>
      have h' : j' < (assign_ranks (i + 1) rest).length := by
        simpa [assign_ranks] using h
      have := ih (i + 1) j' h'
      simp only [assign_ranks, List.get_cons_succ] at h ⊢
      omega

theorem assign_ranks_map_benefit (i : ℕ) (l : List FrictionBacklogProposal) :
    (assign_ranks i l).map (fun p => p.estimated_minutes_saved_per_week) =
      l.map (fun p => p.estimated_minutes_saved_per_week) := by
  induction l generalizing i with
  | nil => rfl
  | cons p rest ih => simp [assign_ranks, ih]

theorem benefit_sorted (l : List FrictionBacklogProposal) :
    ((List.insertionSort benefit_ge l).map
      (fun p => p.estimated_minutes_saved_per_week)).Sorted (· ≥ ·) :=
  List.Pairwise.map _ (fun _ _ h => h) (List.sorted_insertionSort benefit_ge l)

/-- C7: every proposal list produced by the friction backlog ranker is sorted
in descending (non-increasing) order of `estimated_minutes_saved_per_week`
and its 0-based `j`-th element carries rank `j + 1`; in particular two error
kinds with estimated benefits 12.0 and 30.0 come out as
`[kind-with-30.0 (rank 1), kind-with-12.0 (rank 2)]`. -/
theorem friction_backlog_proposals_sorted_and_ranked :
    (∀ (window_days : ℤ) (current_agg prior_agg : FrictionWindowAggregate)
        (current_kinds prior_kinds : List FrictionErrorKindAggregate),
      ((friction_backlog_proposals window_days current_agg prior_agg
          current_kinds prior_kinds).map
        (fun p => p.estimated_minutes_saved_per_week)).Sorted (· ≥ ·) ∧
      (∀ j (h : j < (friction_backlog_proposals window_days current_agg prior_agg
          current_kinds prior_kinds).length),
        ((friction_backlog_proposals window_days current_agg prior_agg
          current_kinds prior_kinds).get ⟨j, h⟩).rank = j + 1)) ∧
    ((friction_backlog_proposals 7 friction_agg_ex friction_agg_ex
        [kind12_ex, kind30_ex] []).map
      (fun p => (p.action_key, p.rank, p.estimated_minutes_saved_per_week)) =
      [("friction_reduction_k30", 1, 30), ("friction_reduction_k12", 2, 12)]) := by
  constructor
  · intro window_days current_agg prior_agg current_kinds prior_kinds
    constructor
    · unfold friction_backlog_proposals
      rw [assign_ranks_map_benefit]
      exact benefit_sorted _
    · intro j h
      unfold friction_backlog_proposals at h ⊢
      have := assign_ranks_get 0 (List.insertionSort benefit_ge
        (current_kinds.map
          (mk_friction_proposal window_days (decide (30 ≤ current_agg.submit_count))
            current_agg.submit_count friction_agg_ex.submit_count prior_kinds))) j
      simpa using assign_ranks_get 0 _ j h
  · have hu30 : underscore_spaces "k30" = "k30" := rfl
    have hu12 : underscore_spaces "k12" = "k12" := rfl
    norm_num [friction_backlog_proposals, mk_friction_proposal, assign_ranks,
      benefit_ge, kind12_ex, kind30_ex, friction_agg_ex, hu30, hu12,
      List.insertionSort, List.orderedInsert]
    exact ⟨rfl, rfl⟩

/-- Witness for `friction_backlog_proposals_sorted_and_ranked`: the rank of
the leading concrete proposal, read off through the universal part. -/
theorem friction_backlog_proposals_sorted_and_ranked_witness :
    ((friction_backlog_proposals 7 friction_agg_ex friction_agg_ex
      [kind12_ex, kind30_ex] []).get ⟨0, by
        simp only [friction_backlog_proposals, assign_ranks_length,
          List.length_insertionSort, List.length_map, List.length_cons, List.length_nil]
        norm_num⟩).rank = 0 + 1 :=
  ((friction_backlog_proposals_sorted_and_ranked.1 7 friction_agg_ex friction_agg_ex
    [kind12_ex, kind30_ex] []).2 0 _)

/- ===================== C6 ================================================================ -/

/-- C6: with fewer than 60 prior-window samples the duration-baseline metric
is ineligible and the `personal_duration_warning_tuning` recommendation (the
first entry) is suppressed with the reason
"needs at least 60 baseline sessions in prior window". -/
theorem duration_baseline_under_60_suppressed
    (current_samples prior_samples : List DaySample)
    (current_from current_to prior_from prior_to window_days : ℤ)
    (h : prior_samples.length < 60) :
    (build_personalization_calc current_samples prior_samples current_from current_to
      prior_from prior_to window_days).metrics.duration_baseline.eligible = false ∧
    ∃ r, (build_personalization_calc current_samples prior_samples current_from current_to
        prior_from prior_to window_days).recommendations.get? 0 = some r ∧
      r.action_key = "personal_duration_warning_tuning" ∧
      r.status = RecommendationStatus.suppressed ∧
      "needs at least 60 baseline sessions in prior window" ∈ r.suppression_reasons := by
  have hel : (duration_metric current_samples prior_samples).eligible = false := by
    simp only [duration_metric, prior_durations]
    simp [List.length_map]
    omega
  refine ⟨hel, _, rfl, rfl, ?_, ?_⟩
  · simp only [build_personalization_calc, build_recommendations, hel]
    simp
  · simp only [build_personalization_calc, build_recommendations, hel]
    simp

/-- Witness for `duration_baseline_under_60_suppressed` on empty windows. -/
theorem duration_baseline_under_60_suppressed_witness :
    (build_personalization_calc [] [] 0 0 0 0 28).metrics.duration_baseline.eligible = false ∧
    ∃ r, (build_personalization_calc [] [] 0 0 0 0 28).recommendations.get? 0 = some r ∧
      r.action_key = "personal_duration_warning_tuning" ∧
      r.status = RecommendationStatus.suppressed ∧
      "needs at least 60 baseline sessions in prior window" ∈ r.suppression_reasons :=
  duration_baseline_under_60_suppressed [] [] 0 0 0 0 28 (by norm_num)

/- ===================== C10 =============================================================== -/

theorem median_nil : median [] = Option.none := rfl

theorem abs_diff_none_left (b : Option ℚ) : abs_diff Option.none b = Option.none := by
  cases b <;> rfl

theorem abs_diff_none_right (a : Option ℚ) : abs_diff a Option.none = Option.none := by
  cases a <;> rfl

/-- C10: if any of the four midpoint sample sets (current/prior ×
weekday/weekend) is empty, the day-type timing baseline metric reports
`midpoint_stable_across_windows = false` and is therefore ineligible — a
missing median is treated as instability, not as an error. -/
theorem day_type_empty_midpoints_unstable
    (current_samples prior_samples : List DaySample)
    (current_from current_to prior_from prior_to window_days : ℤ)
    (h : weekday_midpoints current_samples = [] ∨ weekend_midpoints current_samples = [] ∨
         weekday_midpoints prior_samples = [] ∨ weekend_midpoints prior_samples = []) :
    (build_personalization_calc current_samples prior_samples current_from current_to
      prior_from prior_to window_days).metrics.day_type_timing_baseline.midpoint_stable_across_windows
      = false ∧
    (build_personalization_calc current_samples prior_samples current_from current_to
      prior_from prior_to window_days).metrics.day_type_timing_baseline.eligible = false := by
  have hstable : midpoint_stable_across_windows current_samples prior_samples = false := by
    rcases h with h | h | h | h
    · simp [midpoint_stable_across_windows, weekday_mid_stable, h, median_nil, abs_diff_none_left]
    · simp [midpoint_stable_across_windows, weekend_mid_stable, h, median_nil, abs_diff_none_left]
    · simp [midpoint_stable_across_windows, weekday_mid_stable, h, median_nil, abs_diff_none_right]
    · simp [midpoint_stable_across_windows, weekend_mid_stable, h, median_nil, abs_diff_none_right]
  constructor
  · simp only [build_personalization_calc, day_type_metric]
    exact hstable
  · simp only [build_personalization_calc, day_type_metric]
    simp [hstable]

/-- Witness for `day_type_empty_midpoints_unstable` on empty windows. -/
theorem day_type_empty_midpoints_unstable_witness :
    (build_personalization_calc [] [] 0 0 0 0 28).metrics.day_type_timing_baseline.midpoint_stable_across_windows
      = false ∧
    (build_personalization_calc [] [] 0 0 0 0 28).metrics.day_type_timing_baseline.eligible = false :=
  day_type_empty_midpoints_unstable [] [] 0 0 0 0 28 (Or.inl rfl)


/- ===================== Percentile machinery (for C8, C9, C1) ============================= -/

theorem clamp01_nonneg (p : ℚ) : 0 ≤ clamp01 p := by
  unfold clamp01; split_ifs <;> linarith

theorem clamp01_le_one (p : ℚ) : clamp01 p ≤ 1 := by
  unfold clamp01; split_ifs <;> linarith

theorem clamp01_mono {p q : ℚ} (h : p ≤ q) : clamp01 p ≤ clamp01 q := by
  unfold clamp01; split_ifs <;> linarith

theorem getD_eq_get {s : List ℚ} {i : ℕ} (h : i < s.length) :
    s.getD i 0 = s.get ⟨i, h⟩ := by
  rw [List.getD_eq_getElem?_getD, List.getElem?_eq_getElem h]
  rfl

theorem get?_eq_some_getD {s : List ℚ} {i : ℕ} (h : i < s.length) :
    s.get? i = some (s.getD i 0) := by
  rw [List.get?_eq_get h, getD_eq_get h]

theorem sorted_getD_mono {s : List ℚ} (hs : s.Sorted (· ≤ ·)) {i j : ℕ}
    (hij : i ≤ j) (hj : j < s.length) : s.getD i 0 ≤ s.getD j 0 := by
  have hi : i < s.length := lt_of_le_of_lt hij hj
  rw [getD_eq_get hi, getD_eq_get hj]
  exact hs.rel_get_of_le (Fin.mk_le_mk.mpr hij)

theorem floor_toNat_lt_length {s : List ℚ} {r : ℚ} (hne : s ≠ []) (h0 : 0 ≤ r)
    (hr : r ≤ ((s.length - 1 : ℕ) : ℚ)) : ⌊r⌋.toNat < s.length := by
  have hlen : 1 ≤ s.length := List.length_pos.mpr hne
  have h1 : ⌊r⌋ ≤ ((s.length - 1 : ℕ) : ℤ) := by
    have h := Int.floor_mono hr
    rwa [Int.floor_natCast] at h
  omega

theorem ceil_toNat_lt_length {s : List ℚ} {r : ℚ} (hne : s ≠ []) (h0 : 0 ≤ r)
    (hr : r ≤ ((s.length - 1 : ℕ) : ℚ)) : ⌈r⌉.toNat < s.length := by
  have hlen : 1 ≤ s.length := List.length_pos.mpr hne
  have h1 : ⌈r⌉ ≤ ((s.length - 1 : ℕ) : ℤ) := by
    have h := Int.ceil_mono hr
    rwa [Int.ceil_natCast] at h
  omega

theorem floor_toNat_le_ceil_toNat (r : ℚ) : ⌊r⌋.toNat ≤ ⌈r⌉.toNat := by
  have h := Int.floor_le_ceil r
  omega

theorem floor_toNat_cast {r : ℚ} (h0 : 0 ≤ r) : ((⌊r⌋.toNat : ℕ) : ℚ) = (⌊r⌋ : ℚ) := by
  have h := Int.toNat_of_nonneg (Int.floor_nonneg.mpr h0)
  exact_mod_cast congrArg (fun z : ℤ => (z : ℚ)) h

theorem ceil_eq_floor_add_one_of_not_int {r : ℚ} (h : (⌊r⌋ : ℚ) ≠ r) : ⌈r⌉ = ⌊r⌋ + 1 := by
  have h1 : ⌊r⌋ < ⌈r⌉ := by
    by_contra hcon
    push_neg at hcon
    have hc : (⌈r⌉ : ℚ) ≤ (⌊r⌋ : ℚ) := by exact_mod_cast hcon
    exact h (le_antisymm (Int.floor_le r) (le_trans (Int.le_ceil r) hc))
  have h2 := Int.ceil_le_floor_add_one r
  omega

theorem percentile_linear_eq_interp (v : List ℚ) (hv : v ≠ []) (p : ℚ) :
    percentile_linear v p = some (interp_at (List.insertionSort (· ≤ ·) v)
      (clamp01 p * (((List.insertionSort (· ≤ ·) v).length - 1 : ℕ) : ℚ))) := by
  set s := List.insertionSort (· ≤ ·) v with hs_def
  set r := clamp01 p * ((s.length - 1 : ℕ) : ℚ) with hr_def
  have hne : ¬v.isEmpty := by simpa [List.isEmpty_iff] using hv
  have hr0 : 0 ≤ r := mul_nonneg (clamp01_nonneg p) (Nat.cast_nonneg _)
  simp only [percentile_linear, hne, Bool.false_eq_true, if_false]
  by_cases hlu : ⌊r⌋.toNat = ⌈r⌉.toNat
  · rw [if_pos hlu]
    have hsne : s ≠ [] := by
      intro hnil
      apply hv
      have := List.length_insertionSort (· ≤ ·) v
      rw [← hs_def, hnil] at this
      exact List.length_eq_zero.mp this.symm
    have hrle : r ≤ ((s.length - 1 : ℕ) : ℚ) :=
      mul_le_of_le_one_left (Nat.cast_nonneg _) (clamp01_le_one p)
    have hint : r = ((⌊r⌋.toNat : ℕ) : ℚ) := by
      have hfc : (⌊r⌋ : ℤ) = ⌈r⌉ := by
        have hfn : 0 ≤ ⌊r⌋ := Int.floor_nonneg.mpr hr0
        have hfle := Int.floor_le_ceil r
        omega
      have h1 : (⌊r⌋ : ℚ) ≤ r := Int.floor_le r
      have h2 : r ≤ (⌈r⌉ : ℚ) := Int.le_ceil r
      rw [floor_toNat_cast hr0]
      have : ((⌊r⌋ : ℤ) : ℚ) = ((⌈r⌉ : ℤ) : ℚ) := by exact_mod_cast hfc
      linarith
    rw [get?_eq_some_getD (floor_toNat_lt_length hsne hr0 hrle)]
    unfold interp_at
    rw [← hint]
    ring_nf
  · rw [if_neg hlu]
    unfold interp_at
    congr 1
    ring

theorem interp_at_ge_floor {s : List ℚ} {r : ℚ} (hs : s.Sorted (· ≤ ·)) (hne : s ≠ [])
    (h0 : 0 ≤ r) (hr : r ≤ ((s.length - 1 : ℕ) : ℚ)) :
    s.getD ⌊r⌋.toNat 0 ≤ interp_at s r := by
  unfold interp_at
  have hw : 0 ≤ r - ((⌊r⌋.toNat : ℕ) : ℚ) := by
    rw [floor_toNat_cast h0]
    linarith [Int.floor_le r]
  have hd : s.getD ⌊r⌋.toNat 0 ≤ s.getD ⌈r⌉.toNat 0 :=
    sorted_getD_mono hs (floor_toNat_le_ceil_toNat r) (ceil_toNat_lt_length hne h0 hr)
  nlinarith

theorem interp_at_le_ceil {s : List ℚ} {r : ℚ} (hs : s.Sorted (· ≤ ·)) (hne : s ≠ [])
    (h0 : 0 ≤ r) (hr : r ≤ ((s.length - 1 : ℕ) : ℚ)) :
    interp_at s r ≤ s.getD ⌈r⌉.toNat 0 := by
  unfold interp_at
  have hw : 0 ≤ r - ((⌊r⌋.toNat : ℕ) : ℚ) := by
    rw [floor_toNat_cast h0]
    linarith [Int.floor_le r]
  have hw1 : r - ((⌊r⌋.toNat : ℕ) : ℚ) ≤ 1 := by
    rw [floor_toNat_cast h0]
    linarith [Int.lt_floor_add_one r]
  have hd : s.getD ⌊r⌋.toNat 0 ≤ s.getD ⌈r⌉.toNat 0 :=
    sorted_getD_mono hs (floor_toNat_le_ceil_toNat r) (ceil_toNat_lt_length hne h0 hr)
  nlinarith

theorem interp_at_mono {s : List ℚ} (hs : s.Sorted (· ≤ ·)) (hne : s ≠ [])
    {r1 r2 : ℚ} (h0 : 0 ≤ r1) (h12 : r1 ≤ r2) (h2 : r2 ≤ ((s.length - 1 : ℕ) : ℚ)) :
    interp_at s r1 ≤ interp_at s r2 := by
  have h01 : 0 ≤ r2 := le_trans h0 h12
  have h1le : r1 ≤ ((s.length - 1 : ℕ) : ℚ) := le_trans h12 h2
  rcases lt_or_eq_of_le (Int.floor_mono h12) with hlt | heq
  · have hA := interp_at_le_ceil hs hne h0 h1le
    have hB := interp_at_ge_floor hs hne h01 h2
    have hidx : ⌈r1⌉.toNat ≤ ⌊r2⌋.toNat := by
      have hc := Int.ceil_le_floor_add_one r1
      omega
    have hmid := sorted_getD_mono hs hidx (floor_toNat_lt_length hne h01 h2)
    linarith
  · by_cases hint : (⌊r1⌋ : ℚ) = r1
    · have hval : interp_at s r1 = s.getD ⌊r1⌋.toNat 0 := by
        unfold interp_at
        rw [floor_toNat_cast h0, hint]
        ring
      rw [hval]
      have hB := interp_at_ge_floor hs hne h01 h2
      rw [← heq] at hB
      exact hB
    · have hc1 : ⌈r1⌉ = ⌊r1⌋ + 1 := ceil_eq_floor_add_one_of_not_int hint
      have hfl1 : (⌊r1⌋ : ℚ) < r1 := lt_of_le_of_ne (Int.floor_le r1) hint
      have hint2 : (⌊r2⌋ : ℚ) ≠ r2 := by
        rw [← heq]
        intro hh
        have hh2 : r2 < r1 := by rw [← hh]; exact hfl1
        linarith
      have hc2 : ⌈r2⌉ = ⌊r2⌋ + 1 := ceil_eq_floor_add_one_of_not_int hint2
      have hd : s.getD ⌊r1⌋.toNat 0 ≤ s.getD (⌊r1⌋ + 1).toNat 0 := by
        apply sorted_getD_mono hs (by omega)
        have hcl := ceil_toNat_lt_length hne h01 h2
        rw [hc2, ← heq] at hcl
        exact hcl
      unfold interp_at
      rw [hc1, hc2, ← heq]
      nlinarith

theorem percentile_half_odd (v : List ℚ) (m : ℕ) (h : v.length = 2 * m + 1) :
    percentile_linear v (1/2) = (List.insertionSort (· ≤ ·) v).get? m := by
  have hv : ¬v.isEmpty := by
    cases v with
    | nil => simp at h
    | cons a t => simp
  simp only [percentile_linear, hv, Bool.false_eq_true, if_false]
  have hlen : (List.insertionSort (· ≤ ·) v).length = 2 * m + 1 := by
    rw [List.length_insertionSort, h]
  simp only [hlen]
  have hrank : clamp01 (1/2) * (((2 * m + 1) - 1 : ℕ) : ℚ) = (m : ℚ) := by
    rw [show clamp01 (1/2 : ℚ) = 1/2 by norm_num [clamp01]]
    push_cast
    ring
  rw [hrank, Int.floor_natCast, Int.ceil_natCast]
  rw [if_pos rfl]
  simp

theorem percentile_half_even (v : List ℚ) (m : ℕ) (hm : 1 ≤ m) (h : v.length = 2 * m) :
    percentile_linear v (1/2) =
      some (((List.insertionSort (· ≤ ·) v).getD (m - 1) 0 +
             (List.insertionSort (· ≤ ·) v).getD m 0) / 2) := by
  have hv : ¬v.isEmpty := by
    cases v with
    | nil => simp at h; omega
    | cons a t => simp
  simp only [percentile_linear, hv, Bool.false_eq_true, if_false]
  have hlen : (List.insertionSort (· ≤ ·) v).length = 2 * m := by
    rw [List.length_insertionSort, h]
  simp only [hlen]
  have hrank : clamp01 (1/2) * (((2 * m) - 1 : ℕ) : ℚ) = (m : ℚ) - 1/2 := by
    rw [show clamp01 (1/2 : ℚ) = 1/2 by norm_num [clamp01]]
    rw [Nat.cast_sub (by omega : 1 ≤ 2 * m)]
    push_cast
    ring
  rw [hrank]
  have hfl : ⌊(m : ℚ) - 1/2⌋ = (m : ℤ) - 1 := by
    rw [Int.floor_eq_iff]
    constructor
    · push_cast; linarith
    · push_cast; linarith
  have hcl : ⌈(m : ℚ) - 1/2⌉ = (m : ℤ) := by
    rw [Int.ceil_eq_iff]
    constructor
    · push_cast; linarith
    · push_cast; linarith
  rw [hfl, hcl]
  have htn1 : ((m : ℤ) - 1).toNat = m - 1 := by omega
  have htn2 : ((m : ℤ)).toNat = m := by omega
  rw [htn1, htn2, if_neg (by omega : ¬(m - 1 = m))]
  have hw : ((m - 1 : ℕ) : ℚ) = (m : ℚ) - 1 := by
    rw [Nat.cast_sub hm]
    norm_num
  rw [hw]
  congr 1
  ring

theorem sorted_max_last (l : List ℚ) (hs : l.Sorted (· ≤ ·)) (hne : l ≠ []) :
    l.max? = some (l.getD (l.length - 1) 0) := by
  induction l with
  | nil => exact absurd rfl hne
  | cons a t ih =>
    cases t with
    | nil => rfl
    | cons b t' =>
      have hab : a ≤ b := List.rel_of_sorted_cons hs b (by simp)
      have hmax : max a b = b := max_eq_right hab
      have ih' := ih hs.of_cons (by simp)
      have hstep : (a :: b :: t').max? = (b :: t').max? := by
        simp [List.max?, hmax]
      rw [hstep, ih']
      simp [List.getD_cons_succ]

theorem sorted_take_max (s : List ℚ) (hs : s.Sorted (· ≤ ·)) (m : ℕ) (hm : 1 ≤ m)
    (hlen : m ≤ s.length) : (s.take m).max? = some (s.getD (m - 1) 0) := by
  have hts : (s.take m).Sorted (· ≤ ·) := List.Pairwise.sublist (List.take_sublist m s) hs
  have hlt : (s.take m).length = m := by
    rw [List.length_take]
    omega
  have hne : s.take m ≠ [] := by
    intro hnil
    rw [hnil] at hlt
    simp at hlt
    omega
  rw [sorted_max_last _ hts hne, hlt]
  have h1 : m - 1 < (s.take m).length := by omega
  have h2 : m - 1 < s.length := by omega
  rw [getD_eq_get h1, getD_eq_get h2]
  simp [List.get_eq_getElem, List.getElem_take]

/- ===================== C9 ================================================================ -/

/-- C9: for every non-empty latency list, the selection-based per-bucket
median of the `summary` handler agrees with the sort-based
`percentile_linear` at `p = 1/2` (middle element for odd length, mean of the
two middle elements for even length). -/
theorem summary_median_eq_percentile (l : List ℚ) (h : l ≠ []) :
    percentile_linear l (1/2) = some (summary_bucket_median l) := by
  have hlen0 : 0 < l.length := List.length_pos.mpr h
  have hsort : (List.insertionSort (· ≤ ·) l).Sorted (· ≤ ·) :=
    List.sorted_insertionSort _ _
  have hslen : (List.insertionSort (· ≤ ·) l).length = l.length :=
    List.length_insertionSort _ _
  rcases Nat.even_or_odd l.length with he | ho
  · obtain ⟨m, hm⟩ := he
    have hm1 : 1 ≤ m := by omega
    rw [percentile_half_even l m hm1 (by omega)]
    unfold summary_bucket_median
    rw [if_neg (by omega : ¬(l.length % 2 = 1))]
    have hdiv : l.length / 2 = m := by omega
    rw [hdiv, sorted_take_max _ hsort m hm1 (by omega)]
    simp
  · obtain ⟨m, hm⟩ := ho
    rw [percentile_half_odd l m hm]
    unfold summary_bucket_median
    rw [if_pos (by omega)]
    have hdiv : l.length / 2 = m := by omega
    rw [hdiv]
    exact get?_eq_some_getD (by omega : m < (List.insertionSort (· ≤ ·) l).length)

/-- Witness for `summary_median_eq_percentile`. -/
theorem summary_median_eq_percentile_witness :
    percentile_linear [5, 1] (1/2) = some (summary_bucket_median [5, 1]) :=
  summary_median_eq_percentile [5, 1] (by simp)

/- ===================== C8 ================================================================ -/

/-- C8: for any fixed non-empty input, `percentile_linear` is monotone
non-decreasing in `p`; and for any odd-length input, `percentile_linear` at
`p = 1/2` equals `median` and is exactly the middle element of the sorted
input. -/
theorem percentile_linear_mono_and_odd_median :
    (∀ (v : List ℚ) (p q : ℚ), v ≠ [] → p ≤ q →
      ∃ a b, percentile_linear v p = some a ∧ percentile_linear v q = some b ∧ a ≤ b) ∧
    (∀ v : List ℚ, v.length % 2 = 1 →
      percentile_linear v (1/2) = median v ∧
      percentile_linear v (1/2) =
        (List.insertionSort (· ≤ ·) v).get? ((v.length - 1) / 2)) := by
  constructor
  · intro v p q hv hpq
    have hsort : (List.insertionSort (· ≤ ·) v).Sorted (· ≤ ·) :=
      List.sorted_insertionSort _ _
    have hslen : (List.insertionSort (· ≤ ·) v).length = v.length :=
      List.length_insertionSort _ _
    have hsne : List.insertionSort (· ≤ ·) v ≠ [] := by
      intro hnil
      apply hv
      rw [hnil] at hslen
      exact List.length_eq_zero.mp hslen.symm
    refine ⟨_, _, percentile_linear_eq_interp v hv p, percentile_linear_eq_interp v hv q, ?_⟩
    apply interp_at_mono hsort hsne
    · exact mul_nonneg (clamp01_nonneg p) (Nat.cast_nonneg _)
    · exact mul_le_mul_of_nonneg_right (clamp01_mono hpq) (Nat.cast_nonneg _)
    · exact mul_le_of_le_one_left (Nat.cast_nonneg _) (clamp01_le_one q)
  · intro v hodd
    have hm : v.length = 2 * (v.length / 2) + 1 := by omega
    refine ⟨rfl, ?_⟩
    rw [percentile_half_odd v (v.length / 2) hm]
    congr 1
    omega

/-- Witness for `percentile_linear_mono_and_odd_median` on `[3, 1, 2]`. -/
theorem percentile_linear_mono_and_odd_median_witness :
    (∃ a b, percentile_linear [3, 1, 2] 0 = some a ∧
      percentile_linear [3, 1, 2] 1 = some b ∧ a ≤ b) ∧
    (percentile_linear [3, 1, 2] (1/2) = median [3, 1, 2] ∧
     percentile_linear [3, 1, 2] (1/2) =
       (List.insertionSort (· ≤ ·) [3, 1, 2]).get?
         ((List.length [(3 : ℚ), 1, 2] - 1) / 2)) :=
  ⟨percentile_linear_mono_and_odd_median.1 [3, 1, 2] 0 1 (by simp) (by norm_num),
   percentile_linear_mono_and_odd_median.2 [3, 1, 2] (by simp)⟩

/- ===================== C1 ================================================================ -/

theorem nat_decide_lt_iff (a b : ℕ) : decide (a < b) = !decide (b ≤ a) := by
  by_cases h : b ≤ a
  · simp [h, Nat.not_lt.mpr h]
  · simp [h, Nat.lt_of_not_le h]

/-- C1 (amended): for every recommendation produced by
`build_personalization_calc`, `suppression_reasons` is empty iff the status is
`recommended` — except that the `social_jetlag_schedule_shift_insight`
recommendation is also empty (while suppressed) precisely in the
`social_suppressed_empty_exception` situation: delta sustained in both
windows, current weekend samples ≥ 4, prior weekend samples < 4 (the builder
only checks the current window's weekend count when accumulating reasons,
while eligibility also requires the prior window's). -/
theorem suppression_reasons_empty_iff (current_samples prior_samples : List DaySample)
    (current_from current_to prior_from prior_to window_days : ℤ) :
    ∀ r ∈ (build_personalization_calc current_samples prior_samples current_from current_to
      prior_from prior_to window_days).recommendations,
      (r.suppression_reasons = [] ↔
        (r.status = RecommendationStatus.recommended ∨
          (r.action_key = "social_jetlag_schedule_shift_insight" ∧
            social_suppressed_empty_exception current_samples prior_samples))) := by
  have hk1 : ¬("personal_duration_warning_tuning" = "social_jetlag_schedule_shift_insight") := by
    decide
  have hk2 : ¬("day_type_default_prefill" = "social_jetlag_schedule_shift_insight") := by
    decide
  have hk4 : ¬("regularity_insight_priority" = "social_jetlag_schedule_shift_insight") := by
    decide
  have hk5 : ¬("quality_aligned_factor_explanation" = "social_jetlag_schedule_shift_insight") := by
    decide
  intro r hr
  simp only [build_personalization_calc, build_recommendations, List.mem_cons,
    List.not_mem_nil, or_false] at hr
  rcases hr with rfl | rfl | rfl | rfl | rfl
  · -- personal_duration_warning_tuning
    cases hE : (duration_metric current_samples prior_samples).eligible <;>
      cases hT : duration_trigger current_samples prior_samples <;>
        simp [hE, hT, hk1]
  · -- day_type_default_prefill
    by_cases h8 : 8 ≤ (day_type_medians current_samples).2.2.1 <;>
      by_cases h4 : 4 ≤ (day_type_medians current_samples).2.2.2.2.2 <;>
        cases hst : midpoint_stable_across_windows current_samples prior_samples <;>
          cases hdv : recent_diverges current_samples prior_samples <;>
            simp [day_type_metric, hst, hdv, h8, h4, nat_decide_lt_iff, hk2]
  · -- social_jetlag_schedule_shift_insight
    cases hA : (Option.map (fun d => decide (30 ≤ |d|))
        (social_jetlag_delta current_samples).1).getD false <;>
      cases hB : (Option.map (fun d => decide (30 ≤ |d|))
          (social_jetlag_delta prior_samples).1).getD false <;>
        by_cases h4c : 4 ≤ (social_jetlag_delta current_samples).2 <;>
          by_cases h4p : 4 ≤ (social_jetlag_delta prior_samples).2 <;>
            simp [social_metric, social_suppressed_empty_exception, h4c, h4p, hA, hB,
              nat_decide_lt_iff] <;>
              omega
  · -- regularity_insight_priority
    cases hcv : window_variability current_samples with
    | none =>
      cases hgap : (variability_metric current_samples prior_samples current_from current_to
          window_days).high_data_gap <;>
        simp [variability_metric, hcv, hgap, hk4]
    | some cv =>
      cases hpv : window_variability prior_samples with
      | none =>
        cases hgap : (variability_metric current_samples prior_samples current_from current_to
            window_days).high_data_gap <;>
          simp [variability_metric, hcv, hpv, hgap, hk4]
      | some pv =>
        by_cases h60c : (60 : ℚ) ≤ cv <;> by_cases h60p : (60 : ℚ) ≤ pv <;>
          cases hgap : (variability_metric current_samples prior_samples current_from current_to
              window_days).high_data_gap <;>
            simp [variability_metric, hcv, hpv, h60c, h60p, hgap, hk4]
  · -- quality_aligned_factor_explanation
    by_cases h40 : 40 ≤ (quality_samples_current current_samples).length <;>
      by_cases h3 : 3 ≤ distinct_quality_values current_samples <;>
        cases hqs : (quality_factor_scan current_samples prior_samples).2 <;>
          simp [quality_metric, h40, h3, hqs, nat_decide_lt_iff, hk5]

/-- C1, counterexample: on `current_ex` / `prior_ex` the social-jetlag
recommendation (index 2) is `suppressed` — the prior window has only 3
weekend samples, so the metric is ineligible — while its
`suppression_reasons` list is empty, refuting "empty iff recommended" as
stated. -/
theorem social_suppressed_with_empty_reasons :
    ((build_personalization_calc current_ex prior_ex 0 27 0 0 28).recommendations.get? 2).map
      (fun r => (r.status, r.suppression_reasons)) =
      some (RecommendationStatus.suppressed, ([] : List String)) := by
  have hm1 : median (weekday_midpoints current_ex) = some 0 := by
    show percentile_linear [0] (1/2) = some 0
    rw [percentile_half_odd [(0 : ℚ)] 0 (by rfl)]
    rfl
  have hm2 : median (weekend_midpoints current_ex) = some 60 := by
    show percentile_linear [60, 60, 60, 60, 60] (1/2) = some 60
    rw [percentile_half_odd [(60 : ℚ), 60, 60, 60, 60] 2 (by rfl)]
    rfl
  have hm3 : median (weekday_midpoints prior_ex) = some 0 := by
    show percentile_linear [0] (1/2) = some 0
    rw [percentile_half_odd [(0 : ℚ)] 0 (by rfl)]
    rfl
  have hm4 : median (weekend_midpoints prior_ex) = some 60 := by
    show percentile_linear [60, 60, 60] (1/2) = some 60
    rw [percentile_half_odd [(60 : ℚ), 60, 60] 1 (by rfl)]
    rfl
  have hdelta : circular_signed_minutes_delta 60 0 = 60 := by
    unfold circular_signed_minutes_delta rem_euclid
    norm_num
  have habs : (30 : ℚ) ≤ |(60 : ℚ)| := by
    rw [abs_of_nonneg (by norm_num : (0 : ℚ) ≤ 60)]
    norm_num
  have hcur : (weekend_samples current_ex).length = 5 := rfl
  have hpri : (weekend_samples prior_ex).length = 3 := rfl
  simp [build_personalization_calc, build_recommendations, social_metric,
    social_jetlag_delta, hm1, hm2, hm3, hm4, hdelta, habs, hcur, hpri,
    List.get?_cons_succ, List.get?_cons_zero]
  norm_num

/-- Witness for `suppression_reasons_empty_iff`, instantiated at empty sample
windows and the (fully evaluated) duration recommendation. -/
theorem suppression_reasons_empty_iff_witness :
    (⟨"personal_duration_warning_tuning", RecommendationStatus.suppressed,
        Confidence.low,
        "Replace static unusual-duration warning with personal duration tails",
        ["needs at least 60 baseline sessions in prior window",
         "recent out-of-range incidence is below 5% trigger",
         "schedule disruption guardrail unavailable from current data (travel/shift period not inferred)"]⟩ :
      ActionRecommendation).suppression_reasons = [] ↔
      ((⟨"personal_duration_warning_tuning", RecommendationStatus.suppressed,
          Confidence.low,
          "Replace static unusual-duration warning with personal duration tails",
          ["needs at least 60 baseline sessions in prior window",
           "recent out-of-range incidence is below 5% trigger",
           "schedule disruption guardrail unavailable from current data (travel/shift period not inferred)"]⟩ :
        ActionRecommendation).status = RecommendationStatus.recommended ∨
        ((⟨"personal_duration_warning_tuning", RecommendationStatus.suppressed,
            Confidence.low,
            "Replace static unusual-duration warning with personal duration tails",
            ["needs at least 60 baseline sessions in prior window",
             "recent out-of-range incidence is below 5% trigger",
             "schedule disruption guardrail unavailable from current data (travel/shift period not inferred)"]⟩ :
          ActionRecommendation).action_key = "social_jetlag_schedule_shift_insight" ∧
          social_suppressed_empty_exception [] [])) :=
  suppression_reasons_empty_iff [] [] 0 0 0 0 28 _ (List.mem_cons_self _ _)
